import Mathlib

/-!
Shallow embedding of the Review Acquisition & Reputation Scoring Engine
implemented in `analyze_reputation.py` (class `ReputationAnalyzer`) and driven
by `app.py` / `main`.  Python dictionaries are embedded as structures whose
fields carry the defaults the code supplies through `dict.get`; Python floats
are embedded as rationals; Python's `int(...)` truncation is `pyInt`; the
external collaborators (HTTP transport, the text-classification service, the
JSON decoder of its reply) are oracles passed as explicit arguments.
-/

/-- One provider review record, as consumed by the scorer and the AI adapter:
the code reads `review_text` (default `''`), `review_rating` (default `0`) and
`review_datetime_utc` (default `''`; the empty string models a missing key). -/
structure ReviewRec where
  review_text : String := ""
  review_rating : Nat := 0
  review_datetime_utc : String := ""
  deriving DecidableEq

/-- The clinic record extracted from the provider envelope (`clinic_data`):
`rating` (float, default 0), `reviews` (the provider-reported review count,
default 0 — dict-absence collapses to 0, exactly how `get('reviews', 0)`
behaves), `reviews_data` (the detailed reviews, default `[]`), plus the
identity fields copied into the report. -/
structure ClinicData where
  name : String := "N/A"
  address : String := "N/A"
  phone : String := "N/A"
  website : String := "N/A"
  rating : ℚ := 0
  reviews : Nat := 0
  reviews_data : List ReviewRec := []
  deriving DecidableEq

/-- A red flag produced by the qualitative layer; `severity` is compared
verbatim against the strings `"high"` and `"medium"` by the code. -/
structure RedFlag where
  type : String := ""
  severity : String := ""
  description : String := ""
  deriving DecidableEq

/-- The parsed AI analysis dictionary.  Only the fields the scoring and
recommendation code reads are modelled: `red_flags` (default `[]`) and
`recommandation` (`none` models an absent key, read through
`get('recommandation', 'Investigate')`). -/
structure AiAnalysis where
  red_flags : List RedFlag := []
  recommandation : Option String := none
  deriving DecidableEq

/-- The empty dictionary `{}` the adapter returns on every failure path. -/
def emptyAnalysis : AiAnalysis := {}

/-- Python's `int(q)` on a float value: truncation toward zero. -/
def pyInt (q : ℚ) : Int := q.num.tdiv q.den

/-- Proleptic-Gregorian leap-year test, as used by `datetime`. -/
def isLeap (y : Nat) : Bool := (y % 4 == 0 && y % 100 != 0) || y % 400 == 0

/-- Length of month `m` in year `y` (Gregorian). -/
def daysInMonth (y m : Nat) : Nat :=
  if m = 2 then (if isLeap y then 29 else 28)
  else if m = 4 ∨ m = 6 ∨ m = 9 ∨ m = 11 then 30
  else 31

/-- Days in a common year strictly before month `m` (for `m` in `1..12`). -/
def daysBeforeMonthBase (m : Nat) : Nat :=
  match m with
  | 1 => 0
  | 2 => 31
  | 3 => 59
  | 4 => 90
  | 5 => 120
  | 6 => 151
  | 7 => 181
  | 8 => 212
  | 9 => 243
  | 10 => 273
  | 11 => 304
  | _ => 334

/-- A parsed `datetime` value (what `datetime.strptime` returns). -/
structure PyDateTime where
  year : Nat
  month : Nat
  day : Nat
  hour : Nat
  minute : Nat
  second : Nat
  deriving DecidableEq

/-- Strip leading and trailing whitespace from a character list (Python's
`str.strip`, stated over the string's characters). -/
def trimChars (cs : List Char) : List Char :=
  ((cs.dropWhile Char.isWhitespace).reverse.dropWhile Char.isWhitespace).reverse

/-- Split a character list on a single separator character, with Python's
`str.split(sep)` semantics: the empty input gives one empty group, and
adjacent separators give empty groups. -/
def splitOnChar (sep : Char) (cs : List Char) : List (List Char) :=
  match cs with
  | [] => [[]]
  | c :: rest =>
    let groups := splitOnChar sep rest
    if c = sep then [] :: groups
    else
      match groups with
      | [] => [[c]]
      | g :: gs => (c :: g) :: gs

/-- Decimal value of a non-empty all-digit character list; `none` otherwise. -/
def digitsToNat (cs : List Char) : Option Nat :=
  if cs ≠ [] ∧ cs.all Char.isDigit then
    some (cs.foldl (fun acc c => acc * 10 + (c.toNat - 48)) 0)
  else none

/-- One numeric field of the timestamp: non-empty, all digits, at most
`maxLen` digits (the `_strptime` regexes bound each field's width). -/
def parseField (cs : List Char) (maxLen : Nat) : Option Nat :=
  if cs.length = 0 ∨ cs.length > maxLen then none else digitsToNat cs

/-- Model of the library call `datetime.strptime(s, "%Y-%m-%d %H:%M:%S")`:
`%Y` is exactly four digits, the remaining fields one or two digits, the
separators literal (the format's single space is modelled as a single space),
and the constructor validates the calendar ranges (year ≥ 1, month 1–12, day
bounded by the month length, hour ≤ 23, minute and second ≤ 59).  Returns
`none` where the library raises `ValueError`. -/
def parseDatetime (s : String) : Option PyDateTime :=
  match splitOnChar ' ' s.data with
  | [datePart, timePart] =>
    match splitOnChar '-' datePart, splitOnChar ':' timePart with
    | [ys, mos, ds], [hs, mins, secs] =>
      match parseField ys 4, parseField mos 2, parseField ds 2,
            parseField hs 2, parseField mins 2, parseField secs 2 with
      | some y, some mo, some d, some h, some mi, some sec =>
        if ys.length = 4 ∧ 1 ≤ y ∧ 1 ≤ mo ∧ mo ≤ 12 ∧ 1 ≤ d ∧ d ≤ daysInMonth y mo
            ∧ h ≤ 23 ∧ mi ≤ 59 ∧ sec ≤ 59 then
          some ⟨y, mo, d, h, mi, sec⟩
        else none
      | _, _, _, _, _, _ => none
    | _, _ => none
  | _ => none

/-- Day number of a date in the proleptic Gregorian calendar
(`date.toordinal` semantics, up to a constant offset). -/
def toOrdinalDay (dt : PyDateTime) : Nat :=
  let y := dt.year - 1
  365 * y + y / 4 - y / 100 + y / 400
    + daysBeforeMonthBase dt.month
    + (if isLeap dt.year ∧ dt.month > 2 then 1 else 0)
    + (dt.day - 1)

/-- Absolute time of a `datetime` in seconds (epoch choice irrelevant: the
code only compares datetimes and subtracts a constant `timedelta`). -/
def toSeconds (dt : PyDateTime) : Int :=
  (toOrdinalDay dt : Int) * 86400 + dt.hour * 3600 + dt.minute * 60 + dt.second

/-- The per-review test of the recency loop (lines 269–277): skip an absent
timestamp, skip a timestamp `strptime` rejects, and otherwise count the
review when `review_dt > datetime.now() - timedelta(days=180)`.  `nowSec` is
the absolute time of `datetime.now()` in seconds. -/
def isRecentReview (nowSec : Int) (r : ReviewRec) : Bool :=
  if r.review_datetime_utc = "" then false
  else
    match parseDatetime r.review_datetime_utc with
    | some dt => decide (toSeconds dt > nowSec - 180 * 86400)
    | none => false

/-- `recent_reviews` accumulated by the loop over the review list. -/
def countRecent (reviews : List ReviewRec) (nowSec : Int) : Nat :=
  reviews.countP (isRecentReview nowSec)

/-- Rating sub-score (lines 250–251): `(avg_rating / 5.0) * 40`. -/
def score_rating_of (clinic : ClinicData) : ℚ :=
  clinic.rating / 5 * 40

/-- Volume sub-score (lines 254–262): `num_reviews` is the provider-reported
count, falling back (Python `or`) to the number of retrieved reviews when the
reported count is `0`, then a step function. -/
def score_volume_of (clinic : ClinicData) : ℚ :=
  let num_reviews := if clinic.reviews ≠ 0 then clinic.reviews else clinic.reviews_data.length
  if num_reviews ≥ 100 then 20
  else if num_reviews ≥ 50 then 15
  else if num_reviews ≥ 20 then 10
  else 5

/-- Recency sub-score (lines 264–282): on a non-empty review list, the
fraction of recent reviews scaled by 15; on an empty list the fixed neutral
value 10.  The inner guard mirrors the code's redundant
`if len(reviews) > 0 else 0`. -/
def score_recency_of (reviews : List ReviewRec) (nowSec : Int) : ℚ :=
  if ¬ reviews.isEmpty then
    (if reviews.length > 0 then (countRecent reviews nowSec : ℚ) / (reviews.length : ℚ) else 0)
      * 15   -- recent_ratio * 15 in the source
  else 10

/-- Trend sub-score (line 285): hard-coded neutral 10. -/
def score_trend : ℚ := 10

/-- Red-flag penalty sub-score (lines 288–299): counts of high- and
medium-severity flags, then the penalty ladder. -/
def score_red_flags_of (red_flags : List RedFlag) : ℚ :=
  let high_severity := (red_flags.filter fun rf => rf.severity == "high").length
  let medium_severity := (red_flags.filter fun rf => rf.severity == "medium").length
  if high_severity > 0 then 0
  else if medium_severity > 2 then 3
  else if medium_severity > 0 then 6
  else 10

/-- `calculate_reputation_score` (lines 241–314): 0 on an empty
`reviews_data`, otherwise `int(...)` of the sum of the five sub-scores of the
first clinic record.  `nowSec` is the absolute time of the `datetime.now()`
call the recency computation performs. -/
def calculate_reputation_score (reviews_data : List ClinicData) (ai : AiAnalysis)
    (nowSec : Int) : Int :=
  match reviews_data with
  | [] => 0
  | clinic :: _ =>
    pyInt (score_rating_of clinic + score_volume_of clinic
      + score_recency_of clinic.reviews_data nowSec + score_trend
      + score_red_flags_of ai.red_flags)

/-- `_get_recommendation` (lines 360–373). -/
def _get_recommendation (score : Int) (ai : AiAnalysis) : String :=
  let ai_rec := ai.recommandation.getD "Investigate"
  let high_severity := ai.red_flags.filter fun rf => rf.severity == "high"
  if ¬ high_severity.isEmpty then "NO-GO"
  else if score ≥ 75 ∧ ai_rec = "Go" then "GO"
  else if score < 60 then "NO-GO"
  else "INVESTIGATE"

/-- Modelled from the spec's words (§4.5), for comparison with
`_get_recommendation`: the resolver as a total function of
`(total, hasHighFlag, providerRec)` evaluated in strict priority order. -/
def recommendationSpec (total : Int) (hasHighFlag : Bool) (providerRec : String) : String :=
  if hasHighFlag then "NO-GO"
  else if total ≥ 75 ∧ providerRec = "Go" then "GO"
  else if total < 60 then "NO-GO"
  else "INVESTIGATE"

/-- A duck-typed JSON value as the poll response's `data` field: the code
probes it with `isinstance(..., list)` / `isinstance(..., dict)`.  A JSON
object at the innermost level is clinic-shaped, so `vdict` carries
`ClinicData`; every other scalar shape is `vother` (not a list, not a dict,
truthy) or `vnone` (falsy). -/
inductive PyVal where
  | vnone
  | vother
  | vlist (xs : List PyVal)
  | vdict (c : ClinicData)

/-- Outcome of the submit call `requests.post` (lines 59–69) as seen by the
code: either the transport raises (`RequestException`) or a response with a
status code and a parsed `results_location` (`none` models an absent key —
the falsy empty string is kept representable as `some ""`).  The unused
task `id` is omitted. -/
inductive SubmitOutcome where
  | transportError
  | response (status_code : Nat) (results_location : Option String)
  deriving DecidableEq

/-- Outcome of one poll `requests.get` (lines 77–86): transport failure, or a
response carrying its status code, the envelope's `status` string (`""`
models an absent key) and its `data` field (`get('data', [])`). -/
inductive PollOutcome where
  | transportError
  | response (status_code : Nat) (status : String) (data : PyVal)

/-- The exceptions the scraping code can raise internally: the credential
check (line 41), the submit status check (line 62), the missing
`results_location` (line 69), a transport error, and the poll-ceiling
timeout (line 131). -/
inductive ScrapeExc where
  | credentialMissing
  | badStatus (code : Nat)
  | noResultsLocation
  | transport
  | pollTimeout
  deriving DecidableEq

/-- Envelope unwrapping on a `Success` poll (lines 90–129): require `data` to
be a non-empty list, its first element a non-empty list, and that one's first
element a dict; each shape failure takes a `return []` branch (with a printed
diagnostic) — the code raises nothing here.  On success the snapshot is
`[clinic_data]`. -/
def unwrapEnvelope (data : PyVal) : List ClinicData :=
  match data with
  | .vlist (inner :: _) =>
    match inner with
    | .vlist (first :: _) =>
      match first with
      | .vdict c => [c]
      | _ => []
    | _ => []
  | _ => []

/-- The polling loop (lines 74–129): at most `remaining` further attempts,
each preceded by `time.sleep(5)`.  A non-200 poll response and a non-`Success`
status both fall through to the next attempt; a transport error propagates as
an exception; a `Success` response returns the unwrapped envelope.  When the
attempts are exhausted the timeout is raised (line 131).  The second
component is the total time slept. -/
def pollLoopT (polls : Nat → PollOutcome) (attempt remaining : Nat) :
    Except ScrapeExc (List ClinicData) × Nat :=
  match remaining with
  | 0 => (.error .pollTimeout, 0)
  | r + 1 =>
    match polls attempt with
    | .transportError => (.error .transport, 5)
    | .response code status data =>
      if code ≠ 200 then
        let rest := pollLoopT polls (attempt + 1) r
        (rest.1, rest.2 + 5)
      else if status = "Success" then (.ok (unwrapEnvelope data), 5)
      else
        let rest := pollLoopT polls (attempt + 1) r
        (rest.1, rest.2 + 5)

/-- The body of the `try` block of `scrape_google_reviews` (lines 58–131):
submit, check the status is 200 or 202, check `results_location` is truthy,
then poll up to 18 times. -/
def scrapeInner (submit : SubmitOutcome) (polls : Nat → PollOutcome) :
    Except ScrapeExc (List ClinicData) :=
  match submit with
  | .transportError => .error .transport
  | .response code results_location =>
    if code ≠ 200 ∧ code ≠ 202 then .error (.badStatus code)
    else if results_location.getD "" = "" then .error .noResultsLocation
    else (pollLoopT polls 0 18).1

/-- `scrape_google_reviews` (lines 36–138): the credential check precedes the
`try` block and its exception escapes to the caller; every exception raised
inside the `try` block is caught by the two `except` clauses, which both
`return []`. -/
def scrape_google_reviews (apiKey : Option String) (submit : SubmitOutcome)
    (polls : Nat → PollOutcome) : Except ScrapeExc (List ClinicData) :=
  if apiKey.getD "" = "" then .error .credentialMissing
  else
    match scrapeInner submit polls with
    | .ok l => .ok l
    | .error _ => .ok []

/-- The review-sample prompt lines built by `analyze_with_ai` (lines 153–158):
enumerate the first 50 reviews from 1 and keep a formatted line for each
review whose text is non-empty. -/
def buildReviewsText (reviews : List ReviewRec) : List String :=
  (List.enumFrom 1 (reviews.take 50)).filterMap fun p =>
    if p.2.review_text = "" then none
    else some ("Avis " ++ toString p.1 ++ " (" ++ toString p.2.review_rating ++ "★): "
      ++ p.2.review_text)

/-- The response clean-up of `analyze_with_ai` (lines 221–230): strip, drop a
leading "```json" (7 characters) if present, then a leading "```", then a
trailing "```", then strip again.  Stated over the string's characters. -/
def stripFences (s : String) : String :=
  let c1 := trimChars s.data
  let c2 := if List.isPrefixOf "```json".data c1 then c1.drop 7 else c1
  let c3 := if List.isPrefixOf "```".data c2 then c2.drop 3 else c2
  let c4 := if List.isSuffixOf "```".data c3 then c3.take (c3.length - 3) else c3
  String.mk (trimChars c4)

/-- `analyze_with_ai` (lines 140–239).  The external classification service
is the oracle `callService` (`none` models the call raising; `some resp` a
completed call whose stripped message content is `resp`), and the JSON
decoder is the oracle `jsonParse` (`none` models `json.loads` raising).
Every failure path returns the empty dictionary. -/
def analyze_with_ai (openaiKey : Option String) (callService : Option String)
    (jsonParse : String → Option AiAnalysis) (reviews : List ReviewRec) : AiAnalysis :=
  match reviews with
  | [] => emptyAnalysis
  | _ :: _ =>
    if openaiKey.getD "" = "" then emptyAnalysis
    else
      match buildReviewsText reviews with
      | [] => emptyAnalysis
      | _ :: _ =>
        match callService with
        | none => emptyAnalysis
        | some resp =>
          match jsonParse (stripFences resp) with
          | none => emptyAnalysis
          | some analysis => analysis

/-- The persisted report (lines 339–355), restricted to the fields computed
from the modelled data (the generation timestamp is plumbing). -/
structure Report where
  clinic_name : String
  clinic_location : String
  rating : ℚ
  total_reviews : Nat
  reviews_analyzed : Nat
  reputation_score : Int
  ai_analysis : AiAnalysis
  recommendation : String
  raw_reviews_sample : List ReviewRec
  deriving DecidableEq

/-- `generate_report_data` (lines 316–358): `{}` (here `none`) when no
snapshot was acquired; otherwise run the AI adapter when detailed reviews
exist, score, resolve the recommendation and assemble the report. -/
def generate_report_data (reviews_data : List ClinicData) (openaiKey : Option String)
    (callService : Option String) (jsonParse : String → Option AiAnalysis)
    (nowSec : Int) : Option Report :=
  match reviews_data with
  | [] => none
  | clinic :: _ =>
    let reviews := clinic.reviews_data
    let ai := match reviews with
      | [] => emptyAnalysis
      | _ :: _ => analyze_with_ai openaiKey callService jsonParse reviews
    let reputation_score := calculate_reputation_score reviews_data ai nowSec
    some {
      clinic_name := clinic.name
      clinic_location := clinic.address
      rating := clinic.rating
      total_reviews := clinic.reviews
      reviews_analyzed := reviews.length
      reputation_score := reputation_score
      ai_analysis := ai
      recommendation := _get_recommendation reputation_score ai
      raw_reviews_sample := reviews.take 10 }

/-- The pipeline driver (`main`, lines 399–417, and `app.analyze`): scrape;
an escaping exception or an empty scrape result aborts before any report is
assembled; otherwise the report is generated. -/
def runPipeline (outscraperKey : Option String)
    (submit : SubmitOutcome) (polls : Nat → PollOutcome)
    (openaiKey : Option String) (callService : Option String)
    (jsonParse : String → Option AiAnalysis) (nowSec : Int) : Option Report :=
  match scrape_google_reviews outscraperKey submit polls with
  | .error _ => none
  | .ok [] => none
  | .ok (clinic :: rest) =>
    generate_report_data (clinic :: rest) openaiKey callService jsonParse nowSec

/-- The poll outcomes the loop retries on: a non-200 response, and a 200
response whose status is not `Success`.  (A transport error is not retried —
it aborts the attempt.) -/
def retryablePoll (p : PollOutcome) : Bool :=
  match p with
  | .transportError => false
  | .response code status _ => code != 200 || status != "Success"

/-- Modelled from the spec's words (§4.4), for comparison with
`score_volume_of`: the volume step function of the effective review count. -/
def volumeStep (n : Nat) : ℚ :=
  if n ≥ 100 then 20
  else if n ≥ 50 then 15
  else if n ≥ 20 then 10
  else 5

/-- The envelope shapes `unwrapEnvelope` accepts: a non-empty list whose head
is a non-empty list whose head is a dict. -/
def envelopeWellFormed (data : PyVal) : Bool :=
  match data with
  | .vlist (.vlist (.vdict _ :: _) :: _) => true
  | _ => false

/-- A review of the spec's scenario snapshot, dated `d`. -/
def scenarioReview (d : String) : ReviewRec :=
  { review_text := "Muy bien", review_rating := 5, review_datetime_utc := d }

/-- The spec's scenario snapshot: `averageRating` 4.5, provider-reported
count 120, ten detailed reviews all dated within 30 days of
`scenarioNow` (2026-01-15 12:00:00). -/
def scenarioClinic : ClinicData :=
  { name := "Dental Excellence"
    address := "Medellin"
    rating := 4.5
    reviews := 120
    reviews_data :=
      [scenarioReview "2026-01-01 10:00:00", scenarioReview "2026-01-02 10:00:00",
       scenarioReview "2026-01-03 10:00:00", scenarioReview "2026-01-04 10:00:00",
       scenarioReview "2026-01-05 10:00:00", scenarioReview "2026-01-06 10:00:00",
       scenarioReview "2026-01-07 10:00:00", scenarioReview "2026-01-08 10:00:00",
       scenarioReview "2026-01-09 10:00:00", scenarioReview "2026-01-10 10:00:00"] }

/-- The spec's scenario qualitative analysis: no red flags, provider
recommendation `Go`. -/
def scenarioAi : AiAnalysis := { red_flags := [], recommandation := some "Go" }

/-- The invocation time of the spec's scenario: 2026-01-15 12:00:00. -/
def scenarioNow : Int := toSeconds ⟨2026, 1, 15, 12, 0, 0⟩

/-- A clinic whose only review is dated 2025-01-01; its recency sub-score
flips depending on the wall-clock time of the scoring call. -/
def timeDepClinic : ClinicData :=
  { name := "T"
    rating := 5
    reviews := 0
    reviews_data := [{ review_text := "ok", review_rating := 5,
                       review_datetime_utc := "2025-01-01 00:00:00" }] }

/-- An invocation time within 180 days of `timeDepClinic`'s review
(2025-03-01). -/
def tEarly : Int := toSeconds ⟨2025, 3, 1, 0, 0, 0⟩

/-- A second invocation time also within 180 days of `timeDepClinic`'s
review (2025-02-01): the recent-review count at `tEarlier` equals the one at
`tEarly`, though the instants differ. -/
def tEarlier : Int := toSeconds ⟨2025, 2, 1, 0, 0, 0⟩

/-- An invocation time more than 180 days after `timeDepClinic`'s review
(2026-03-01). -/
def tLate : Int := toSeconds ⟨2026, 3, 1, 0, 0, 0⟩

/-- A poll schedule answering every attempt with `Success` and the spec's
example of a malformed envelope: the inner container is a map, not a
sequence (`data = [ {...clinic...} ]`, i.e. `data[0]` is a dict). -/
def malformedPolls : Nat → PollOutcome :=
  fun _ => .response 200 "Success" (.vlist [.vdict { name := "X" }])

/-- A review whose timestamp does not parse, for concrete instantiations. -/
def badStampReview : ReviewRec :=
  { review_text := "ok", review_rating := 3, review_datetime_utc := "last Tuesday" }

/-- A qualitative analysis carrying one high-severity red flag and a `Go`
provider recommendation, for concrete instantiations. -/
def highAi : AiAnalysis :=
  { red_flags := [{ type := "infection", severity := "high", description := "grave" }]
    recommandation := some "Go" }

/-! ## Theorems -/

/-- A list's filtration is empty exactly when no element satisfies the
predicate, i.e. the negation of `any`. -/
theorem filterIsEmpty_not_any {α : Type} (p : α → Bool) (l : List α) :
    (l.filter p).isEmpty = !(l.any p) := by
  induction l with
  | nil => rfl
  | cons a l ih =>
    cases h : p a <;> simp [List.filter_cons, h, List.any_cons, ih]

/-- C1: the recommendation resolver is a total function of
`(total, hasHighFlag, providerRec)` evaluated in strict priority order: any
high-severity red flag forces `NO-GO` unconditionally; otherwise
`total ≥ 75` together with provider recommendation exactly `Go` gives `GO`;
otherwise `total < 60` gives `NO-GO`; otherwise `INVESTIGATE`.  The provider
recommendation never forces `NO-GO` outside the red-flag rule. -/
theorem recommendation_resolver_correct (score : Int) (ai : AiAnalysis) :
    (_get_recommendation score ai
      = recommendationSpec score (ai.red_flags.any fun rf => rf.severity == "high")
          (ai.recommandation.getD "Investigate"))
    ∧ ((ai.red_flags.any fun rf => rf.severity == "high") = true →
        _get_recommendation score ai = "NO-GO")
    ∧ ((ai.red_flags.any fun rf => rf.severity == "high") = false → 60 ≤ score →
        _get_recommendation score ai ≠ "NO-GO")
    ∧ ((ai.red_flags.any fun rf => rf.severity == "high") = false → 75 ≤ score →
        ai.recommandation.getD "Investigate" = "Go" →
        _get_recommendation score ai = "GO")
    ∧ ((ai.red_flags.any fun rf => rf.severity == "high") = false →
        ¬ (75 ≤ score ∧ ai.recommandation.getD "Investigate" = "Go") → score < 60 →
        _get_recommendation score ai = "NO-GO")
    ∧ ((ai.red_flags.any fun rf => rf.severity == "high") = false →
        ¬ (75 ≤ score ∧ ai.recommandation.getD "Investigate" = "Go") → 60 ≤ score →
        _get_recommendation score ai = "INVESTIGATE") := by
  have hb := filterIsEmpty_not_any (fun rf => rf.severity == "high") ai.red_flags
  cases hany : ai.red_flags.any fun rf => rf.severity == "high" with
  | true =>
    rw [hany] at hb
    have hget : _get_recommendation score ai = "NO-GO" := by
      simp [_get_recommendation, hb]
    have hspec : recommendationSpec score true (ai.recommandation.getD "Investigate")
        = "NO-GO" := by simp [recommendationSpec]
    exact ⟨by rw [hget, hspec], fun _ => hget, fun h => absurd h (by simp),
      fun h => absurd h (by simp), fun h => absurd h (by simp), fun h => absurd h (by simp)⟩
  | false =>
    rw [hany] at hb
    have hgr : _get_recommendation score ai =
        if 75 ≤ score ∧ ai.recommandation.getD "Investigate" = "Go" then "GO"
        else if score < 60 then "NO-GO" else "INVESTIGATE" := by
      simp [_get_recommendation, hb, ge_iff_le]
    have hrs : recommendationSpec score false (ai.recommandation.getD "Investigate") =
        if 75 ≤ score ∧ ai.recommandation.getD "Investigate" = "Go" then "GO"
        else if score < 60 then "NO-GO" else "INVESTIGATE" := by
      simp [recommendationSpec, ge_iff_le]
    by_cases hgo : 75 ≤ score ∧ ai.recommandation.getD "Investigate" = "Go"
    · refine ⟨by rw [hgr, hrs], fun h => absurd h (by simp), fun _ _ => ?_, fun _ _ _ => ?_,
        fun _ hn => absurd hgo hn, fun _ hn => absurd hgo hn⟩
      · rw [hgr]; simp [hgo]
      · rw [hgr]; simp [hgo]
    · by_cases hlow : score < 60
      · refine ⟨by rw [hgr, hrs], fun h => absurd h (by simp), fun _ hge => absurd hlow (by omega),
          fun _ h75 hgo2 => absurd ⟨h75, hgo2⟩ hgo, fun _ _ _ => ?_,
          fun _ _ hge => absurd hlow (by omega)⟩
        rw [hgr]; simp [hgo, hlow]
      · refine ⟨by rw [hgr, hrs], fun h => absurd h (by simp), fun _ _ => ?_,
          fun _ h75 hgo2 => absurd ⟨h75, hgo2⟩ hgo, fun _ _ hl => absurd hl hlow,
          fun _ _ _ => ?_⟩
        · rw [hgr]; simp [hgo, hlow]
        · rw [hgr]; simp [hgo, hlow]

/-- Witness for C1: a perfect score of 100 with provider recommendation `Go`
is still forced to `NO-GO` by one high-severity red flag. -/
theorem recommendation_resolver_witness : _get_recommendation 100 highAi = "NO-GO" :=
  (recommendation_resolver_correct 100 highAi).2.1 (by decide)

/-- The penalty ladder restated through `countP` (the code uses the lengths
of two filtrations, which are exactly these counts). -/
theorem score_red_flags_countP (flags : List RedFlag) :
    score_red_flags_of flags =
      if 0 < flags.countP (fun rf => rf.severity == "high") then 0
      else if 2 < flags.countP (fun rf => rf.severity == "medium") then 3
      else if 0 < flags.countP (fun rf => rf.severity == "medium") then 6
      else 10 := by
  simp [score_red_flags_of, List.countP_eq_length_filter]

/-- C3: the red-flag penalty is 0 when any flag has severity high; else 3
when strictly more than two flags have severity medium; else 6 when at least
one flag has severity medium; else 10 (including when no analysis is
available).  The penalty depends only on the multiset of severities: it is
invariant under permutation of the red-flag sequence. -/
theorem red_flag_penalty_spec (flags : List RedFlag) :
    (score_red_flags_of flags =
      if 0 < flags.countP (fun rf => rf.severity == "high") then 0
      else if 2 < flags.countP (fun rf => rf.severity == "medium") then 3
      else if 0 < flags.countP (fun rf => rf.severity == "medium") then 6
      else 10)
    ∧ (∀ flags2, flags.Perm flags2 → score_red_flags_of flags = score_red_flags_of flags2)
    ∧ ((∃ rf ∈ flags, rf.severity = "high") → score_red_flags_of flags = 0)
    ∧ score_red_flags_of [] = 10
    ∧ score_red_flags_of emptyAnalysis.red_flags = 10 := by
  refine ⟨score_red_flags_countP flags, ?_, ?_, by norm_num [score_red_flags_of],
    by norm_num [score_red_flags_of, emptyAnalysis]⟩
  · intro flags2 hp
    rw [score_red_flags_countP flags, score_red_flags_countP flags2,
      hp.countP_eq (fun rf => rf.severity == "high"),
      hp.countP_eq (fun rf => rf.severity == "medium")]
  · rintro ⟨rf, hmem, hsev⟩
    rw [score_red_flags_countP flags]
    have hpos : 0 < flags.countP (fun rf => rf.severity == "high") :=
      List.countP_pos_iff.mpr ⟨rf, hmem, by simp [hsev]⟩
    simp [hpos]

/-- Witness for C3: one medium flag next to one high flag is penalised 0, in
either order. -/
theorem red_flag_penalty_witness :
    score_red_flags_of [⟨"b", "high", "e"⟩, ⟨"a", "medium", "d"⟩] = 0
    ∧ score_red_flags_of [⟨"a", "medium", "d"⟩, ⟨"b", "high", "e"⟩] = 0 :=
  ⟨(red_flag_penalty_spec [⟨"b", "high", "e"⟩, ⟨"a", "medium", "d"⟩]).2.2.1
      ⟨⟨"b", "high", "e"⟩, by decide, rfl⟩,
    (red_flag_penalty_spec [⟨"a", "medium", "d"⟩, ⟨"b", "high", "e"⟩]).2.2.1
      ⟨⟨"b", "high", "e"⟩, by decide, rfl⟩⟩

/-- C5: the volume sub-score applies the non-decreasing step function
`volumeStep` to the provider-reported count, falling back to the number of
retrieved reviews when the reported count is zero (or absent, which the
model collapses to zero); the boundary counts 19, 20, 49, 50, 99, 100 map to
5, 10, 10, 15, 15, 20. -/
theorem volume_subscore_spec (clinic : ClinicData) :
    (clinic.reviews ≠ 0 → score_volume_of clinic = volumeStep clinic.reviews)
    ∧ (clinic.reviews = 0 → score_volume_of clinic = volumeStep clinic.reviews_data.length)
    ∧ (∀ m n : Nat, m ≤ n → volumeStep m ≤ volumeStep n)
    ∧ volumeStep 19 = 5 ∧ volumeStep 20 = 10 ∧ volumeStep 49 = 10
    ∧ volumeStep 50 = 15 ∧ volumeStep 99 = 15 ∧ volumeStep 100 = 20 := by
  refine ⟨fun h => by simp [score_volume_of, volumeStep, h],
    fun h => by simp [score_volume_of, volumeStep, h],
    fun m n hmn => ?_,
    by norm_num [volumeStep], by norm_num [volumeStep], by norm_num [volumeStep],
    by norm_num [volumeStep], by norm_num [volumeStep], by norm_num [volumeStep]⟩
  unfold volumeStep
  split_ifs <;> first | (exfalso; omega) | norm_num

/-- Witness for C5: the scenario snapshot reports 120 reviews, so the step
function is applied to 120; and the step function is monotone across the
19-to-100 boundary span. -/
theorem volume_subscore_witness :
    score_volume_of scenarioClinic = volumeStep scenarioClinic.reviews
    ∧ volumeStep 19 ≤ volumeStep 100 :=
  ⟨(volume_subscore_spec scenarioClinic).1 (by decide),
    (volume_subscore_spec scenarioClinic).2.2.1 19 100 (by decide)⟩

/-- C2: the total reputation score is the truncated (floor, for the
non-negative values at hand — never rounded) integer sum of the five
sub-scores, and on the spec's concrete scenario (rating 4.5, 120 reported
reviews, ten reviews within the last 30 days, no red flags, provider
recommendation `Go`) the sub-scores are 36, 20, 15, 10, 10, the total is 91
and the final recommendation is `GO`. -/
theorem total_score_spec :
    (∀ (clinic : ClinicData) (rest : List ClinicData) (ai : AiAnalysis) (nowSec : Int),
      calculate_reputation_score (clinic :: rest) ai nowSec
        = pyInt (score_rating_of clinic + score_volume_of clinic
            + score_recency_of clinic.reviews_data nowSec + score_trend
            + score_red_flags_of ai.red_flags))
    ∧ (∀ q : ℚ, 0 ≤ q → ((pyInt q : ℚ) ≤ q ∧ q < pyInt q + 1))
    ∧ score_rating_of scenarioClinic = 36
    ∧ score_volume_of scenarioClinic = 20
    ∧ score_recency_of scenarioClinic.reviews_data scenarioNow = 15
    ∧ score_trend = 10
    ∧ score_red_flags_of scenarioAi.red_flags = 10
    ∧ calculate_reputation_score [scenarioClinic] scenarioAi scenarioNow = 91
    ∧ _get_recommendation (calculate_reputation_score [scenarioClinic] scenarioAi scenarioNow)
        scenarioAi = "GO" := by
  have hcount : countRecent scenarioClinic.reviews_data scenarioNow = 10 := by decide
  have hne : scenarioClinic.reviews_data.isEmpty = false := by decide
  have hlen : scenarioClinic.reviews_data.length = 10 := by decide
  have hrating : score_rating_of scenarioClinic = 36 := by
    norm_num [score_rating_of, scenarioClinic]
  have hvolume : score_volume_of scenarioClinic = 20 := by decide
  have hrecency : score_recency_of scenarioClinic.reviews_data scenarioNow = 15 := by
    rw [score_recency_of, hcount, hlen, hne]
    norm_num
  have hflags : score_red_flags_of scenarioAi.red_flags = 10 := by decide
  have htotal : calculate_reputation_score [scenarioClinic] scenarioAi scenarioNow = 91 := by
    rw [calculate_reputation_score, hrating, hvolume, hrecency, hflags]
    norm_num [score_trend, pyInt]
  refine ⟨fun clinic rest ai nowSec => rfl, ?_, hrating, hvolume, hrecency, rfl, hflags,
    htotal, ?_⟩
  · intro q hq
    have hnum : 0 ≤ q.num := Rat.num_nonneg.mpr hq
    have hden : (0 : Int) ≤ (q.den : Int) := Int.natCast_nonneg q.den
    have hfl : pyInt q = ⌊q⌋ := by
      rw [pyInt, Int.tdiv_eq_ediv hnum hden, Rat.floor_def]
    constructor
    · rw [hfl]; exact Int.floor_le q
    · rw [hfl]; exact Int.lt_floor_add_one q
  · rw [htotal]; decide

/-- Witness for C2: the floor characterisation of the truncated total,
instantiated at the non-integer value 91.9 (so the total is cut down to 91,
never rounded up to 92). -/
theorem total_score_witness :
    ((pyInt (919 / 10 : ℚ) : ℚ) ≤ 919 / 10 ∧ (919 / 10 : ℚ) < pyInt (919 / 10 : ℚ) + 1) :=
  total_score_spec.2.1 (919 / 10 : ℚ) (by norm_num)

/-- C4: the recency sub-score is exactly 10 on an empty review sequence; on
a non-empty sequence it is the number of reviews whose timestamp parses and
falls within the last 180 days, divided by the total number of reviews,
scaled by 15 — unparseable or missing timestamps are skipped and count only
in the denominator, so zero parsed timestamps give 0 and all-parsed
all-recent timestamps give exactly 15. -/
theorem recency_subscore_spec (reviews : List ReviewRec) (nowSec : Int) :
    (reviews = [] → score_recency_of reviews nowSec = 10)
    ∧ (reviews ≠ [] → score_recency_of reviews nowSec
        = (countRecent reviews nowSec : ℚ) / (reviews.length : ℚ) * 15)
    ∧ (∀ r : ReviewRec, parseDatetime r.review_datetime_utc = none →
        isRecentReview nowSec r = false)
    ∧ (reviews ≠ [] → (∀ r ∈ reviews, parseDatetime r.review_datetime_utc = none) →
        score_recency_of reviews nowSec = 0)
    ∧ (reviews ≠ [] →
        (∀ r ∈ reviews, ∃ dt, parseDatetime r.review_datetime_utc = some dt
          ∧ toSeconds dt > nowSec - 180 * 86400) →
        score_recency_of reviews nowSec = 15) := by
  have hfrac : reviews ≠ [] → score_recency_of reviews nowSec
      = (countRecent reviews nowSec : ℚ) / (reviews.length : ℚ) * 15 := by
    intro h
    have hne : reviews.isEmpty = false := by simp [List.isEmpty_iff, h]
    have hlen : 0 < reviews.length := List.length_pos.mpr h
    simp [score_recency_of, hne, hlen]
  have hskip : ∀ r : ReviewRec, parseDatetime r.review_datetime_utc = none →
      isRecentReview nowSec r = false := by
    intro r hp
    simp [isRecentReview, hp]
  refine ⟨fun h => by simp [score_recency_of, h], hfrac, hskip, ?_, ?_⟩
  · intro h hall
    have hcount : countRecent reviews nowSec = 0 := by
      rw [countRecent]
      exact List.countP_eq_zero.mpr fun r hr => by simp [hskip r (hall r hr)]
    rw [hfrac h, hcount]
    norm_num
  · intro h hall
    have hcount : countRecent reviews nowSec = reviews.length := by
      rw [countRecent]
      refine List.countP_eq_length.mpr fun r hr => ?_
      rcases hall r hr with ⟨dt, hp, hrec⟩
      have hs : r.review_datetime_utc ≠ "" := by
        intro he
        rw [he, show parseDatetime "" = none from rfl] at hp
        exact Option.noConfusion hp
      simp [isRecentReview, hs, hp]
      omega
    have hlen0 : (reviews.length : ℚ) ≠ 0 := by
      have := List.length_pos.mpr h
      positivity
    rw [hfrac h, hcount, div_self hlen0, one_mul]

/-- Witness for C4: the empty sequence scores 10; a single review with an
unparseable timestamp scores 0; the scenario's ten all-recent reviews score
exactly 15. -/
theorem recency_subscore_witness :
    score_recency_of [] 0 = 10
    ∧ score_recency_of [badStampReview] 0 = 0
    ∧ score_recency_of scenarioClinic.reviews_data scenarioNow = 15 :=
  ⟨(recency_subscore_spec [] 0).1 rfl,
    (recency_subscore_spec [badStampReview] 0).2.2.2.1 (by decide) (by decide),
    (recency_subscore_spec scenarioClinic.reviews_data scenarioNow).2.2.2.2 (by decide)
      (by intro r hr; fin_cases hr <;> exact ⟨_, rfl, by decide⟩)⟩

/-- An element of an enumerated list is an element of the list. -/
theorem mem_of_mem_enumFrom {α : Type} {x : α} :
    ∀ {l : List α} {n i : Nat}, (i, x) ∈ List.enumFrom n l → x ∈ l := by
  intro l
  induction l with
  | nil =>
    intro n i hp
    rw [show List.enumFrom n ([] : List α) = [] from rfl] at hp
    exact absurd hp (List.not_mem_nil _)
  | cons a l ih =>
    intro n i hp
    rw [List.enumFrom_cons] at hp
    rcases List.mem_cons.mp hp with h | h
    · injection h with h1 h2
      rw [h2]
      exact List.mem_cons_self a l
    · exact List.mem_cons_of_mem a (ih h)

/-- When every sampled review has empty text, the prompt-line list built by
the adapter is empty. -/
theorem buildReviewsText_eq_nil (reviews : List ReviewRec)
    (hall : ∀ r ∈ reviews.take 50, r.review_text = "") :
    buildReviewsText reviews = [] := by
  rw [buildReviewsText, List.filterMap_eq_nil_iff]
  rintro ⟨i, r⟩ hp
  have hr : r ∈ reviews.take 50 := mem_of_mem_enumFrom hp
  simp [hall r hr]

/-- C8: the qualitative analyzer adapter never propagates failure past its
boundary: an empty review sequence, a falsy classification credential, no
sampled review (cap 50) with non-empty text, a failing service call, or a
failing JSON parse each produce the empty analysis instead of an error; and
on the success path the JSON parser receives exactly the fence-stripped
(leading ```json or ``` and trailing ```) response text. -/
theorem ai_adapter_never_fails (key : Option String) (svc : Option String)
    (jp : String → Option AiAnalysis) (reviews : List ReviewRec) :
    (reviews = [] → analyze_with_ai key svc jp reviews = emptyAnalysis)
    ∧ (key.getD "" = "" → analyze_with_ai key svc jp reviews = emptyAnalysis)
    ∧ ((∀ r ∈ reviews.take 50, r.review_text = "") →
        analyze_with_ai key svc jp reviews = emptyAnalysis)
    ∧ (svc = none → analyze_with_ai key svc jp reviews = emptyAnalysis)
    ∧ (∀ resp, svc = some resp → jp (stripFences resp) = none →
        analyze_with_ai key svc jp reviews = emptyAnalysis)
    ∧ (∀ resp a, svc = some resp → jp (stripFences resp) = some a →
        reviews ≠ [] → key.getD "" ≠ "" → buildReviewsText reviews ≠ [] →
        analyze_with_ai key svc jp reviews = a) := by
  cases reviews with
  | nil =>
    exact ⟨fun _ => rfl, fun _ => rfl, fun _ => rfl, fun _ => rfl, fun _ _ _ => rfl,
      fun _ _ _ _ h _ => absurd rfl h⟩
  | cons r rs =>
    by_cases hkey : key.getD "" = ""
    · have he : analyze_with_ai key svc jp (r :: rs) = emptyAnalysis := by
        simp [analyze_with_ai, hkey]
      exact ⟨fun h => absurd h (List.cons_ne_nil r rs), fun _ => he, fun _ => he,
        fun _ => he, fun _ _ _ => he, fun _ _ _ _ _ hk _ => absurd hkey hk⟩
    · cases hb : buildReviewsText (r :: rs) with
      | nil =>
        have he : analyze_with_ai key svc jp (r :: rs) = emptyAnalysis := by
          simp [analyze_with_ai, hkey, hb]
        exact ⟨fun h => absurd h (List.cons_ne_nil r rs), fun hk => absurd hk hkey,
          fun _ => he, fun _ => he, fun _ _ _ => he,
          fun _ _ _ _ _ _ hbn => absurd rfl hbn⟩
      | cons t ts =>
        cases svc with
        | none =>
          have he : analyze_with_ai key none jp (r :: rs) = emptyAnalysis := by
            simp [analyze_with_ai, hkey, hb]
          exact ⟨fun h => absurd h (List.cons_ne_nil r rs), fun hk => absurd hk hkey,
            fun _ => he, fun _ => he, fun _ hn => Option.noConfusion hn,
            fun _ _ hn => Option.noConfusion hn⟩
        | some resp =>
          cases hj : jp (stripFences resp) with
          | none =>
            have he : analyze_with_ai key (some resp) jp (r :: rs) = emptyAnalysis := by
              simp [analyze_with_ai, hkey, hb, hj]
            refine ⟨fun h => absurd h (List.cons_ne_nil r rs), fun hk => absurd hk hkey,
              fun _ => he, fun hn => Option.noConfusion hn, fun resp2 hs2 _ => ?_,
              fun resp2 a hs2 hj2 _ _ _ => ?_⟩
            · cases hs2
              exact he
            · cases hs2
              rw [hj] at hj2
              exact Option.noConfusion hj2
          | some a0 =>
            have hres : analyze_with_ai key (some resp) jp (r :: rs) = a0 := by
              simp [analyze_with_ai, hkey, hb, hj]
            refine ⟨fun h => absurd h (List.cons_ne_nil r rs), fun hk => absurd hk hkey,
              fun hall => ?_, fun hn => Option.noConfusion hn,
              fun resp2 hs2 hj2 => ?_, fun resp2 a hs2 hj2 _ _ _ => ?_⟩
            · exact absurd (buildReviewsText_eq_nil (r :: rs) hall)
                (by rw [hb]; exact List.cons_ne_nil t ts)
            · cases hs2
              rw [hj] at hj2
              exact Option.noConfusion hj2
            · cases hs2
              rw [hj] at hj2
              injection hj2 with ha
              rw [hres, ha]

/-- Witness for C8: concrete instantiations of every degradation path (empty
input, missing credential, all-empty texts, failing service call, failing
parse) and of the success path, where the fenced response is stripped before
parsing. -/
theorem ai_adapter_witness :
    analyze_with_ai (some "k") (some "x") (fun _ => none) [] = emptyAnalysis
    ∧ analyze_with_ai none (some "x") (fun _ => none) [scenarioReview "d"] = emptyAnalysis
    ∧ analyze_with_ai (some "k") (some "x") (fun _ => none) [{ review_text := "" }]
        = emptyAnalysis
    ∧ analyze_with_ai (some "k") none (fun _ => none) [scenarioReview "d"] = emptyAnalysis
    ∧ analyze_with_ai (some "k") (some "x") (fun _ => none) [scenarioReview "d"]
        = emptyAnalysis
    ∧ analyze_with_ai (some "k") (some "```json\nhello\n```")
        (fun s => if s = "hello" then some highAi else none) [scenarioReview "d"] = highAi :=
  ⟨(ai_adapter_never_fails (some "k") (some "x") (fun _ => none) []).1 rfl,
    (ai_adapter_never_fails none (some "x") (fun _ => none) [scenarioReview "d"]).2.1 rfl,
    (ai_adapter_never_fails (some "k") (some "x") (fun _ => none)
      [{ review_text := "" }]).2.2.1 (by decide),
    (ai_adapter_never_fails (some "k") none (fun _ => none) [scenarioReview "d"]).2.2.2.1 rfl,
    (ai_adapter_never_fails (some "k") (some "x") (fun _ => none)
      [scenarioReview "d"]).2.2.2.2.1 "x" rfl rfl,
    (ai_adapter_never_fails (some "k") (some "```json\nhello\n```")
      (fun s => if s = "hello" then some highAi else none) [scenarioReview "d"]).2.2.2.2.2
      "```json\nhello\n```" highAi rfl (by decide) (by decide) (by decide) (by decide)⟩

/-- When every attempt in the window is retryable, the poll loop exhausts
its attempts, raises the timeout, and has slept 5 time-units per attempt. -/
theorem pollLoopT_timeout (polls : Nat → PollOutcome) :
    ∀ (r a : Nat), (∀ i, i < r → retryablePoll (polls (a + i)) = true) →
    pollLoopT polls a r = (.error .pollTimeout, 5 * r) := by
  intro r
  induction r with
  | zero => intro a _; rfl
  | succ r ih =>
    intro a hall
    have h0 : retryablePoll (polls a) = true := by
      have h := hall 0 (Nat.succ_pos r)
      simpa using h
    have hrest : pollLoopT polls (a + 1) r = (.error .pollTimeout, 5 * r) := by
      apply ih
      intro i hi
      have h := hall (i + 1) (by omega)
      have e : a + (i + 1) = a + 1 + i := by omega
      rw [e] at h
      exact h
    cases hp : polls a with
    | transportError =>
      rw [hp] at h0
      exact absurd h0 (by simp [retryablePoll])
    | response code status data =>
      rw [hp] at h0
      simp [retryablePoll] at h0
      by_cases hc : code = 200
      · have hs : status ≠ "Success" := by
          rcases h0 with h | h
          · exact absurd hc h
          · exact h
        simp [pollLoopT, hp, hc, hs, hrest, Nat.mul_succ]
      · simp [pollLoopT, hp, hc, hrest, Nat.mul_succ]

/-- C6: the submit-and-poll client waits a fixed 5 time-units before each of
at most 18 poll attempts (a 90-time-unit ceiling); a not-ready poll (non-200
response, or 200 with a non-`Success` status) just waits and retries; when
every attempt in the window is retryable the loop raises the poll timeout,
the scraping call salvages no partial snapshot (it yields the empty list)
and the pipeline produces no report. -/
theorem poll_protocol_spec (polls : Nat → PollOutcome) :
    (∀ attempt r, retryablePoll (polls attempt) = true →
      pollLoopT polls attempt (r + 1)
        = ((pollLoopT polls (attempt + 1) r).1, (pollLoopT polls (attempt + 1) r).2 + 5))
    ∧ ((∀ i, i < 18 → retryablePoll (polls i) = true) →
        pollLoopT polls 0 18 = (.error .pollTimeout, 90))
    ∧ (∀ code loc key openaiKey svc jp nowSec,
        (code = 200 ∨ code = 202) → loc.getD "" ≠ "" → key.getD "" ≠ "" →
        (∀ i, i < 18 → retryablePoll (polls i) = true) →
        scrapeInner (.response code loc) polls = .error .pollTimeout
        ∧ scrape_google_reviews key (.response code loc) polls = .ok []
        ∧ runPipeline key (.response code loc) polls openaiKey svc jp nowSec = none) := by
  refine ⟨?_, ?_, ?_⟩
  · intro attempt r hret
    cases hp : polls attempt with
    | transportError =>
      rw [hp] at hret
      exact absurd hret (by simp [retryablePoll])
    | response code status data =>
      rw [hp] at hret
      simp [retryablePoll] at hret
      by_cases hc : code = 200
      · have hs : status ≠ "Success" := by
          rcases hret with h | h
          · exact absurd hc h
          · exact h
        simp [pollLoopT, hp, hc, hs]
      · simp [pollLoopT, hp, hc]
  · intro hall
    have h := pollLoopT_timeout polls 18 0 (by intro i hi; simpa using hall i hi)
    simpa using h
  · intro code loc key openaiKey svc jp nowSec hcode hloc hkey hall
    have hto : (pollLoopT polls 0 18).1 = .error .pollTimeout := by
      rw [pollLoopT_timeout polls 18 0 (by intro i hi; simpa using hall i hi)]
    have hinner : scrapeInner (.response code loc) polls = .error .pollTimeout := by
      have hcond : ¬ (code ≠ 200 ∧ code ≠ 202) := by
        rcases hcode with rfl | rfl <;> simp
      simp [scrapeInner, hcond, hloc, hto]
    have hscrape : scrape_google_reviews key (.response code loc) polls = .ok [] := by
      simp [scrape_google_reviews, hkey, hinner]
    exact ⟨hinner, hscrape, by simp [runPipeline, hscrape]⟩

/-- Witness for C6: a poll schedule answering `Pending` forever exhausts the
18-attempt window after 90 time-units of waiting, the scrape yields the
empty snapshot and the pipeline yields no report. -/
theorem poll_protocol_witness :
    pollLoopT (fun _ => .response 200 "Pending" .vnone) 0 18 = (.error .pollTimeout, 90)
    ∧ scrapeInner (.response 200 (some "url")) (fun _ => .response 200 "Pending" .vnone)
        = .error .pollTimeout
    ∧ runPipeline (some "k") (.response 200 (some "url"))
        (fun _ => .response 200 "Pending" .vnone) (some "o") (some "x") (fun _ => none) 0
        = none :=
  ⟨(poll_protocol_spec (fun _ => .response 200 "Pending" .vnone)).2.1 (by decide),
    ((poll_protocol_spec (fun _ => .response 200 "Pending" .vnone)).2.2 200 (some "url")
      (some "k") (some "o") (some "x") (fun _ => none) 0 (Or.inl rfl) (by decide) (by decide)
      (by decide)).1,
    ((poll_protocol_spec (fun _ => .response 200 "Pending" .vnone)).2.2 200 (some "url")
      (some "k") (some "o") (some "x") (fun _ => none) 0 (Or.inl rfl) (by decide) (by decide)
      (by decide)).2.2⟩

/-- C10: with the scraping credential set, `scrape_google_reviews` never
lets an exception escape: whatever the submit and poll outcomes (bad submit
status, missing results location, transport errors, exhausted polls,
malformed envelopes), every internal error is caught and the method returns
a list; the credential-missing exception is the only one to escape, and it
is raised independently of the network oracles (before any network call). -/
theorem scrape_no_raise_with_key (key : Option String) (submit : SubmitOutcome)
    (polls : Nat → PollOutcome) :
    (key.getD "" ≠ "" → ∃ l, scrape_google_reviews key submit polls = .ok l)
    ∧ (∀ e, key.getD "" ≠ "" → scrapeInner submit polls = .error e →
        scrape_google_reviews key submit polls = .ok [])
    ∧ (key.getD "" = "" →
        scrape_google_reviews key submit polls = .error .credentialMissing)
    ∧ (key.getD "" = "" → ∀ (submit2 : SubmitOutcome) (polls2 : Nat → PollOutcome),
        scrape_google_reviews key submit polls = scrape_google_reviews key submit2 polls2) := by
  by_cases hk : key.getD "" = ""
  · exact ⟨fun h => absurd hk h, fun e h => absurd hk h,
      fun _ => by simp [scrape_google_reviews, hk],
      fun _ submit2 polls2 => by simp [scrape_google_reviews, hk]⟩
  · refine ⟨?_, ?_, fun h => absurd h hk, fun h => absurd h hk⟩
    · intro _
      cases hs : scrapeInner submit polls with
      | ok l => exact ⟨l, by simp [scrape_google_reviews, hk, hs]⟩
      | error e => exact ⟨[], by simp [scrape_google_reviews, hk, hs]⟩
    · intro e _ hs
      simp [scrape_google_reviews, hk, hs]

/-- Witness for C10: a transport failure on submit is swallowed into the
empty list when the credential is set; without the credential the
credential exception escapes no matter the oracles. -/
theorem scrape_no_raise_witness :
    scrape_google_reviews (some "k") .transportError (fun _ => .transportError) = .ok []
    ∧ scrape_google_reviews none (.response 200 (some "u")) (fun _ => .transportError)
        = .error .credentialMissing :=
  ⟨(scrape_no_raise_with_key (some "k") .transportError (fun _ => .transportError)).2.1
      .transport (by decide) rfl,
    (scrape_no_raise_with_key none (.response 200 (some "u"))
      (fun _ => .transportError)).2.2.1 rfl⟩

/-- Counterexample for C7: on the spec's own example of a malformed envelope
(the inner container is a map, not a sequence: `data = [ {...} ]`), the
scraping call raises no `AcquisitionError`-like exception at all — the inner
`try` body itself finishes with the empty snapshot (`.ok []`, a plain
`return []`), and the whole call returns `.ok []`, so the malformed envelope
IS coerced into an empty result instead of failing with an error. -/
theorem malformed_envelope_no_error :
    scrapeInner (.response 200 (some "url")) malformedPolls = .ok []
    ∧ scrape_google_reviews (some "k") (.response 200 (some "url")) malformedPolls
        = .ok [] :=
  ⟨rfl, rfl⟩

/-- C7 (amended): the provider client checks each nesting level of the
envelope of a successful poll, but at the level where the shape diverges it
abandons the run by returning the empty snapshot (with a printed
diagnostic) rather than raising an `AcquisitionError`; the pipeline then
produces no report for that run. -/
theorem malformed_envelope_returns_empty (d : PyVal)
    (hd : envelopeWellFormed d = false) :
    unwrapEnvelope d = []
    ∧ (∀ code loc key openaiKey svc jp nowSec,
        (code = 200 ∨ code = 202) → loc.getD "" ≠ "" → key.getD "" ≠ "" →
        scrapeInner (.response code loc) (fun _ => .response 200 "Success" d) = .ok []
        ∧ scrape_google_reviews key (.response code loc)
            (fun _ => .response 200 "Success" d) = .ok []
        ∧ runPipeline key (.response code loc) (fun _ => .response 200 "Success" d)
            openaiKey svc jp nowSec = none) := by
  have hu : unwrapEnvelope d = [] := by
    cases d with
    | vnone => rfl
    | vother => rfl
    | vdict _ => rfl
    | vlist xs =>
      cases xs with
      | nil => rfl
      | cons inner rest =>
        cases inner with
        | vnone => rfl
        | vother => rfl
        | vdict _ => rfl
        | vlist ys =>
          cases ys with
          | nil => rfl
          | cons first zs =>
            cases first with
            | vnone => rfl
            | vother => rfl
            | vlist _ => rfl
            | vdict c => exact absurd hd (by simp [envelopeWellFormed])
  refine ⟨hu, ?_⟩
  intro code loc key openaiKey svc jp nowSec hcode hloc hkey
  have hpoll : pollLoopT (fun _ => PollOutcome.response 200 "Success" d) 0 18
      = (.ok (unwrapEnvelope d), 5) := rfl
  have hinner : scrapeInner (.response code loc) (fun _ => .response 200 "Success" d)
      = .ok [] := by
    have hcond : ¬ (code ≠ 200 ∧ code ≠ 202) := by
      rcases hcode with rfl | rfl <;> simp
    simp [scrapeInner, hcond, hloc, hpoll, hu]
  have hscrape : scrape_google_reviews key (.response code loc)
      (fun _ => .response 200 "Success" d) = .ok [] := by
    simp [scrape_google_reviews, hkey, hinner]
  exact ⟨hinner, hscrape, by simp [runPipeline, hscrape]⟩

/-- Witness for C7 (amended): the dict-instead-of-sequence envelope unwraps
to the empty snapshot and yields no report. -/
theorem malformed_envelope_witness :
    unwrapEnvelope (.vlist [.vdict { name := "X" }]) = []
    ∧ runPipeline (some "k") (.response 200 (some "url"))
        (fun _ => .response 200 "Success" (.vlist [.vdict { name := "X" }]))
        (some "o") (some "x") (fun _ => none) 0 = none :=
  ⟨(malformed_envelope_returns_empty (.vlist [.vdict { name := "X" }]) rfl).1,
    ((malformed_envelope_returns_empty (.vlist [.vdict { name := "X" }]) rfl).2 200
      (some "url") (some "k") (some "o") (some "x") (fun _ => none) 0 (Or.inl rfl)
      (by decide) (by decide)).2.2⟩

/-- Counterexample for C9: scoring the same snapshot with the same (empty)
qualitative analysis at two different wall-clock instants gives different
totals — the recency sub-score reads the clock, so the scorer is not a
function of the snapshot and analysis alone. -/
theorem scorer_time_dependence :
    calculate_reputation_score [timeDepClinic] emptyAnalysis tEarly
      ≠ calculate_reputation_score [timeDepClinic] emptyAnalysis tLate := by
  have hc1 : countRecent timeDepClinic.reviews_data tEarly = 1 := by decide
  have hc2 : countRecent timeDepClinic.reviews_data tLate = 0 := by decide
  have hne : timeDepClinic.reviews_data.isEmpty = false := by decide
  have hlen : timeDepClinic.reviews_data.length = 1 := by decide
  have hr1 : score_recency_of timeDepClinic.reviews_data tEarly = 15 := by
    rw [score_recency_of, hc1, hlen, hne]
    norm_num
  have hr2 : score_recency_of timeDepClinic.reviews_data tLate = 0 := by
    rw [score_recency_of, hc2, hlen, hne]
    norm_num
  have hrat : score_rating_of timeDepClinic = 40 := by
    norm_num [score_rating_of, timeDepClinic]
  have hvol : score_volume_of timeDepClinic = 5 := by decide
  have hflag : score_red_flags_of emptyAnalysis.red_flags = 10 := by decide
  have h1 : calculate_reputation_score [timeDepClinic] emptyAnalysis tEarly = 80 := by
    rw [calculate_reputation_score, hrat, hvol, hr1, hflag]
    norm_num [score_trend, pyInt]
  have h2 : calculate_reputation_score [timeDepClinic] emptyAnalysis tLate = 65 := by
    rw [calculate_reputation_score, hrat, hvol, hr2, hflag]
    norm_num [score_trend, pyInt]
  rw [h1, h2]
  decide

/-- C9 (amended): the scorer is a deterministic function of the snapshot,
the qualitative analysis and the invocation time; two invocations on the
same snapshot and analysis agree whenever the number of the first clinic's
reviews classified recent agrees between the two instants — every sub-score
other than recency ignores the clock. -/
theorem scorer_deterministic_given_time (reviews_data : List ClinicData)
    (ai : AiAnalysis) (s t : Int)
    (h : ∀ clinic ∈ reviews_data.head?, countRecent clinic.reviews_data s
        = countRecent clinic.reviews_data t) :
    calculate_reputation_score reviews_data ai s
      = calculate_reputation_score reviews_data ai t := by
  cases reviews_data with
  | nil => rfl
  | cons clinic rest =>
    have hc : countRecent clinic.reviews_data s = countRecent clinic.reviews_data t :=
      h clinic (by simp)
    simp [calculate_reputation_score, score_recency_of, hc]

/-- Witness for C9 (amended): scoring `timeDepClinic` on 2025-02-01 and on
2025-03-01 — two distinct instants at which its single review counts as
recent either way — produces the same total. -/
theorem scorer_deterministic_witness :
    calculate_reputation_score [timeDepClinic] emptyAnalysis tEarlier
      = calculate_reputation_score [timeDepClinic] emptyAnalysis tEarly :=
  scorer_deterministic_given_time [timeDepClinic] emptyAnalysis tEarlier tEarly
    (by
      intro clinic hc
      have h := Option.mem_some_iff.mp hc
      rw [← h]
      decide)
